import Mathlib

/-!
Shallow embedding of the Wpd pipeline orchestrator from
`src/algorithms/peakDetection/windowedPeakDetection.py`.

The orchestrator wires five worker stages (PreProcessor, Window,
PeakScorer, PeakDetector, PostProcessor) through four internal queues
and five observable "plottable list" sequences, subscribes an external
UI callback handler to the five sequences, and delegates lifecycle
commands (start/stop) and status queries (isDone/isRunning) to the
stages.

Object identity matters for the wiring claims, so queues and plottable
lists are named by numeric identifiers allocated at construction time;
their mutable contents live in stores (functions from identifier to
contents) that the accessors take as an explicit argument.
-/

/-- Data items flowing through the pipeline are opaque to the
orchestrator; we fix them to integers. -/
abbrev Item := Int

/-- Modelled from the spec: `src/infra/queue.py` is not in the sources.
A work queue is a FIFO of items; `size()` is the instantaneous count of
queued items.  A queue's current contents are a list, stored by queue
identifier. -/
abbrev QueueContents := List Item

/-- Modelled from the spec: queue `size()` is the number of currently
queued items. -/
def Queue.size (c : QueueContents) : Nat := c.length

/-- A subscription held by a plottable list: an external observer
(identified numerically) registered under a topic name. -/
structure Subscription where
  observer : Nat
  topic : String
deriving DecidableEq, Repr

/-- Modelled from the spec: `src/infra/plottableList.py` is not in the
sources.  A plottable list is an append-only observable sequence of
published values together with its registered subscriptions. -/
structure PlottableState where
  entries : List Item
  subs : List Subscription
deriving DecidableEq, Repr

/-- Modelled from the spec: a freshly created plottable list is empty
and has no subscribers. -/
def PlottableState.empty : PlottableState := ⟨[], []⟩

/-- Modelled from the spec: `subscribe(observer, topic)` registers the
observer under the topic; notification order is subscription order, so
subscriptions are kept in registration order. -/
def PlottableState.subscribe (p : PlottableState) (observer : Nat) (topic : String) :
    PlottableState :=
  { p with subs := p.subs ++ [⟨observer, topic⟩] }

/-- Modelled from the spec: the length of an observable sequence, as
read by `len(...)` / `getSteps`. -/
def PlottableState.length (p : PlottableState) : Nat := p.entries.length

/-- Modelled from the spec: a stage's lifecycle states
`Idle → Running → Stopping → Stopped`. -/
inductive StageStatus where
  | Idle
  | Running
  | Stopping
  | Stopped
deriving DecidableEq, Repr

/-- Modelled from the spec: the stage classes (`WpdPreProcessor`, the
smoothing windows, the peak scorers, `PeakDetector`,
`WpdPostProcessor`) are not in the sources.  The orchestrator depends
only on this uniform surface: the lifecycle status, the independent
`Done` flag, a pending stop request, and non-owning references to the
input queue, output queue and plottable lists the stage was constructed
with.  The stage's internal algorithmic state is out of scope. -/
structure Stage where
  status : StageStatus
  done : Bool
  stopRequested : Bool
  inQueue : Option Nat
  outQueue : Option Nat
  plotRefs : List Nat
deriving DecidableEq, Repr

/-- Modelled from the spec: constructing a stage records its queue and
plottable-list wiring; a new stage is idle, not done, with no pending
stop request. -/
def Stage.mk' (inQ outQ : Option Nat) (plots : List Nat) : Stage :=
  { status := .Idle, done := false, stopRequested := false,
    inQueue := inQ, outQueue := outQ, plotRefs := plots }

/-- Modelled from the spec: `isDone()` reports the stage's `Done`
flag (true once end-of-stream was observed and propagated). -/
def Stage.isDone (s : Stage) : Bool := s.done

/-- Modelled from the spec: `isRunning()` is true while the stage is in
the `Running` state and not yet `Done`. -/
def Stage.isRunning (s : Stage) : Bool := s.status == .Running && !s.done

/-- Modelled from the spec: `start()` transitions `Idle/Stopped →
Running`, unconditionally entering the `Running` state. -/
def Stage.start (s : Stage) : Stage := { s with status := .Running }

/-- Modelled from the spec: `stop()` requests a graceful halt; the
transition to `Stopped` happens later, inside the stage's own
iteration loop. -/
def Stage.stop (s : Stage) : Stage := { s with stopRequested := true }

/-- The `Wpd` object as assembled by `Wpd.__init__`: the five queue
attributes and five plottable-list attributes hold identifiers of the
underlying objects, and the five stage attributes hold the worker
objects. -/
structure Wpd where
  inputQueue : Nat
  dataQueue : Nat
  smoothedDataQueue : Nat
  peakScores : Nat
  peaks : Nat
  data : Nat
  smoothedData : Nat
  peakScoreData : Nat
  peakData : Nat
  confirmedPeaks : Nat
  preProcessing : Stage
  window : Stage
  peakScorer : Stage
  peakDetection : Stage
  postProcessing : Stage
deriving DecidableEq, Repr

/-- The mutable world the pipeline lives in: contents of every queue
and state of every plottable list, indexed by identifier, plus the next
fresh identifier for allocation. -/
structure Env where
  queueContents : Nat → QueueContents
  plotStates : Nat → PlottableState
  nextId : Nat

/-- `Wpd.__init__`: allocates the four internal queues (fresh and
empty) and the five plottable lists (fresh and empty, then subscribed
once by the UI callback handler under the five topic names of source
lines 52–56), and builds the five worker stages with the wiring of
source lines 59–63 (the window/scorer type selectors pick the stage's
internal algorithm from a registry, which does not affect the wiring
recorded here; parameter bundles are opaque to the orchestrator).
Fresh identifiers `e.nextId .. e.nextId + 8` are given, in allocation
order, to `dataQueue`, `smoothedDataQueue`, `peakScores`, `peaks`,
`data`, `smoothedData`, `peakScoreData`, `peakData`,
`confirmedPeaks`. -/
def Wpd.init (e : Env) (queue : Nat) (uiCallbackHandler : Nat) : Wpd × Env :=
  let b := e.nextId
  ({ inputQueue := queue,
     dataQueue := b, smoothedDataQueue := b + 1, peakScores := b + 2, peaks := b + 3,
     data := b + 4, smoothedData := b + 5, peakScoreData := b + 6,
     peakData := b + 7, confirmedPeaks := b + 8,
     preProcessing := Stage.mk' (some queue) (some b) [b + 4],
     window := Stage.mk' (some b) (some (b + 1)) [],
     peakScorer := Stage.mk' (some (b + 1)) (some (b + 2)) [b + 5],
     peakDetection := Stage.mk' (some (b + 2)) (some (b + 3)) [b + 6],
     postProcessing := Stage.mk' (some (b + 3)) none [b + 7, b + 8] },
   { queueContents := fun i =>
       if i = b ∨ i = b + 1 ∨ i = b + 2 ∨ i = b + 3 then [] else e.queueContents i,
     plotStates := fun i =>
       if i = b + 4 then PlottableState.empty.subscribe uiCallbackHandler ("raw_data")
       else if i = b + 5 then PlottableState.empty.subscribe uiCallbackHandler ("smooth_data")
       else if i = b + 6 then PlottableState.empty.subscribe uiCallbackHandler ("peak_score_data")
       else if i = b + 7 then PlottableState.empty.subscribe uiCallbackHandler ("peak_data")
       else if i = b + 8 then PlottableState.empty.subscribe uiCallbackHandler ("confirmed_peak_data")
       else e.plotStates i,
     nextId := b + 9 })

/-- Names of the five stages, used to record which stage a lifecycle
call was made on. -/
inductive StageName where
  | preProcessing
  | window
  | peakScorer
  | peakDetection
  | postProcessing
deriving DecidableEq, Repr

/-- One observable action performed by a lifecycle method of `Wpd`:
calling `start()`, `stop()`, `isDone()` or `isRunning()` on a stage. -/
inductive Event where
  | startStage (n : StageName)
  | stopStage (n : StageName)
  | queryDone (n : StageName)
  | queryRunning (n : StageName)
deriving DecidableEq, Repr

/-- `Wpd.start`: calls `start()` on the five stages in source order,
returning the updated object and the trace of stage calls made. -/
def Wpd.start (w : Wpd) : Wpd × List Event :=
  ({ w with
     preProcessing := w.preProcessing.start,
     window := w.window.start,
     peakScorer := w.peakScorer.start,
     peakDetection := w.peakDetection.start,
     postProcessing := w.postProcessing.start },
   [.startStage .preProcessing, .startStage .window, .startStage .peakScorer,
    .startStage .peakDetection, .startStage .postProcessing])

/-- `Wpd.stop`: calls `stop()` on the five stages in source order,
returning the updated object and the trace of stage calls made. -/
def Wpd.stop (w : Wpd) : Wpd × List Event :=
  ({ w with
     preProcessing := w.preProcessing.stop,
     window := w.window.stop,
     peakScorer := w.peakScorer.stop,
     peakDetection := w.peakDetection.stop,
     postProcessing := w.postProcessing.stop },
   [.stopStage .preProcessing, .stopStage .window, .stopStage .peakScorer,
    .stopStage .peakDetection, .stopStage .postProcessing])

/-- `Wpd.isDone`: the conjunction of the five stages' `isDone()`
results, exactly as on source lines 84–85. -/
def Wpd.isDone (w : Wpd) : Bool :=
  w.preProcessing.isDone && w.window.isDone && w.peakScorer.isDone &&
    w.peakDetection.isDone && w.postProcessing.isDone

/-- `Wpd.isRunning`: the disjunction of the five stages' `isRunning()`
results, exactly as on source lines 88–89. -/
def Wpd.isRunning (w : Wpd) : Bool :=
  w.preProcessing.isRunning || w.window.isRunning || w.peakScorer.isRunning ||
    w.peakDetection.isRunning || w.postProcessing.isRunning

/-- `getRawData`: returns `self.data`. -/
def Wpd.getRawData (w : Wpd) : Nat := w.data

/-- `getProcessedDataSize`: returns `self.dataQueue.size()`, read in
the current queue store. -/
def Wpd.getProcessedDataSize (w : Wpd) (qs : Nat → QueueContents) : Nat :=
  Queue.size (qs w.dataQueue)

/-- `getSmoothedData`: returns `self.smoothedData`. -/
def Wpd.getSmoothedData (w : Wpd) : Nat := w.smoothedData

/-- `getPeaks`: returns `self.confirmedPeaks`. -/
def Wpd.getPeaks (w : Wpd) : Nat := w.confirmedPeaks

/-- `getSteps`: returns `len(self.confirmedPeaks)`, read in the current
plottable-list store. -/
def Wpd.getSteps (w : Wpd) (ps : Nat → PlottableState) : Nat :=
  (ps w.confirmedPeaks).length

/-- A Python `AttributeError` raised on attribute lookup. -/
inductive PyError where
  | attributeError (name : String)
deriving DecidableEq, Repr

/-- The value of a `Wpd` attribute: a reference to a queue, a
plottable list, or a stage object. -/
inductive Attr where
  | queueRef (id : Nat)
  | plotRef (id : Nat)
  | stageRef (s : Stage)
deriving DecidableEq, Repr

/-- Python attribute lookup on a `Wpd` instance: exactly the attributes
assigned by `__init__` resolve; any other name raises
`AttributeError`. -/
def Wpd.getAttr (w : Wpd) : String → Option Attr
  | "inputQueue" => some (.queueRef w.inputQueue)
  | "dataQueue" => some (.queueRef w.dataQueue)
  | "smoothedDataQueue" => some (.queueRef w.smoothedDataQueue)
  | "peakScores" => some (.queueRef w.peakScores)
  | "peaks" => some (.queueRef w.peaks)
  | "data" => some (.plotRef w.data)
  | "smoothedData" => some (.plotRef w.smoothedData)
  | "peakScoreData" => some (.plotRef w.peakScoreData)
  | "peakData" => some (.plotRef w.peakData)
  | "confirmedPeaks" => some (.plotRef w.confirmedPeaks)
  | "preProcessing" => some (.stageRef w.preProcessing)
  | "window" => some (.stageRef w.window)
  | "peakScorer" => some (.stageRef w.peakScorer)
  | "peakDetection" => some (.stageRef w.peakDetection)
  | "postProcessing" => some (.stageRef w.postProcessing)
  | _ => none

/-- `getPeakyData`: returns `self.peakyData`, an attribute lookup that
either yields the attribute's value or raises `AttributeError`. -/
def Wpd.getPeakyData (w : Wpd) : Except PyError Attr :=
  match w.getAttr ("peakyData") with
  | some a => .ok a
  | none => .error (.attributeError ("peakyData"))

/-- Lifecycle methods of `Wpd`, for reasoning about arbitrary call
sequences. -/
inductive LifecycleOp where
  | start
  | stop
  | queryDone
  | queryRunning
deriving DecidableEq, Repr

/-- Effect of one lifecycle call on the `Wpd` object (the status
queries read stage flags and modify nothing). -/
def Wpd.applyOp (w : Wpd) : LifecycleOp → Wpd
  | .start => (Wpd.start w).1
  | .stop => (Wpd.stop w).1
  | .queryDone => w
  | .queryRunning => w

/-- Effect of a sequence of lifecycle calls. -/
def Wpd.applyOps (w : Wpd) (ops : List LifecycleOp) : Wpd :=
  ops.foldl Wpd.applyOp w

/-- Queue contents after `Wpd.__init__`: the four freshly allocated
queues are empty, every other queue is untouched. -/
theorem Wpd.init_queueContents (e : Env) (q ui i : Nat) :
    ((Wpd.init e q ui).2).queueContents i =
      if i = e.nextId ∨ i = e.nextId + 1 ∨ i = e.nextId + 2 ∨ i = e.nextId + 3 then []
      else e.queueContents i := rfl

/-- Plottable-list states after `Wpd.__init__`: the five freshly
allocated sequences are empty with exactly one subscription each, every
other sequence is untouched. -/
theorem Wpd.init_plotStates (e : Env) (q ui i : Nat) :
    ((Wpd.init e q ui).2).plotStates i =
      if i = e.nextId + 4 then PlottableState.empty.subscribe ui ("raw_data")
      else if i = e.nextId + 5 then PlottableState.empty.subscribe ui ("smooth_data")
      else if i = e.nextId + 6 then PlottableState.empty.subscribe ui ("peak_score_data")
      else if i = e.nextId + 7 then PlottableState.empty.subscribe ui ("peak_data")
      else if i = e.nextId + 8 then PlottableState.empty.subscribe ui ("confirmed_peak_data")
      else e.plotStates i := rfl

/-- The `Wpd` object built by `__init__`, with all identifiers spelled
out. -/
theorem Wpd.init_fst (e : Env) (q ui : Nat) :
    (Wpd.init e q ui).1 =
      { inputQueue := q, dataQueue := e.nextId, smoothedDataQueue := e.nextId + 1,
        peakScores := e.nextId + 2, peaks := e.nextId + 3,
        data := e.nextId + 4, smoothedData := e.nextId + 5,
        peakScoreData := e.nextId + 6, peakData := e.nextId + 7,
        confirmedPeaks := e.nextId + 8,
        preProcessing := Stage.mk' (some q) (some e.nextId) [e.nextId + 4],
        window := Stage.mk' (some e.nextId) (some (e.nextId + 1)) [],
        peakScorer := Stage.mk' (some (e.nextId + 1)) (some (e.nextId + 2)) [e.nextId + 5],
        peakDetection := Stage.mk' (some (e.nextId + 2)) (some (e.nextId + 3)) [e.nextId + 6],
        postProcessing := Stage.mk' (some (e.nextId + 3)) none [e.nextId + 7, e.nextId + 8] } :=
  rfl

/-- A stage that is Done (or Stopped) does not report running. -/
theorem Stage.isRunning_eq_false_of_done_or_stopped (s : Stage)
    (h : s.done = true ∨ s.status = StageStatus.Stopped) : s.isRunning = false := by
  rcases h with h | h <;> simp [Stage.isRunning, h]

/-- A concrete world with no pre-existing queues or plottable lists,
used to instantiate the constructor theorems. -/
def env0 : Env :=
  { queueContents := fun _ => [], plotStates := fun _ => PlottableState.empty, nextId := 10 }

/-- A concrete pipeline: built over `env0` from input queue `3` and UI
callback handler `7`. -/
def wpd0 : Wpd := (Wpd.init env0 3 7).1

/-- The world after building `wpd0`. -/
def env0' : Env := (Wpd.init env0 3 7).2

/-- A stage that has observed end-of-stream and halted. -/
def finishedStage : Stage :=
  { status := .Stopped, done := true, stopRequested := true,
    inQueue := none, outQueue := none, plotRefs := [] }

/-- A pipeline whose five stages are all done and stopped. -/
def finishedWpd : Wpd :=
  { inputQueue := 0, dataQueue := 1, smoothedDataQueue := 2, peakScores := 3, peaks := 4,
    data := 5, smoothedData := 6, peakScoreData := 7, peakData := 8, confirmedPeaks := 9,
    preProcessing := finishedStage, window := finishedStage, peakScorer := finishedStage,
    peakDetection := finishedStage, postProcessing := finishedStage }

/-- C1: `Wpd.isDone` is true exactly when all five stages
(PreProcessor, Window, PeakScorer, PeakDetector, PostProcessor) report
done — it is the logical AND of the five stages' `isDone()` results. -/
theorem Wpd.isDone_iff_all_stages_done (w : Wpd) :
    w.isDone = true ↔
      (w.preProcessing.isDone = true ∧ w.window.isDone = true ∧
       w.peakScorer.isDone = true ∧ w.peakDetection.isDone = true ∧
       w.postProcessing.isDone = true) := by
  simp [Wpd.isDone, Bool.and_eq_true, and_assoc]

/-- C2: `Wpd.isRunning` is true exactly when at least one of the five
stages reports running — it is the logical OR of the five stages'
`isRunning()` results — and it is false once every stage is Done or
Stopped. -/
theorem Wpd.isRunning_iff_any_stage_running (w : Wpd) :
    (w.isRunning = true ↔
      (w.preProcessing.isRunning = true ∨ w.window.isRunning = true ∨
       w.peakScorer.isRunning = true ∨ w.peakDetection.isRunning = true ∨
       w.postProcessing.isRunning = true)) ∧
    ((w.preProcessing.done = true ∨ w.preProcessing.status = StageStatus.Stopped) →
     (w.window.done = true ∨ w.window.status = StageStatus.Stopped) →
     (w.peakScorer.done = true ∨ w.peakScorer.status = StageStatus.Stopped) →
     (w.peakDetection.done = true ∨ w.peakDetection.status = StageStatus.Stopped) →
     (w.postProcessing.done = true ∨ w.postProcessing.status = StageStatus.Stopped) →
     w.isRunning = false) := by
  constructor
  · simp [Wpd.isRunning, Bool.or_eq_true, or_assoc]
  · intro h1 h2 h3 h4 h5
    simp [Wpd.isRunning,
      Stage.isRunning_eq_false_of_done_or_stopped _ h1,
      Stage.isRunning_eq_false_of_done_or_stopped _ h2,
      Stage.isRunning_eq_false_of_done_or_stopped _ h3,
      Stage.isRunning_eq_false_of_done_or_stopped _ h4,
      Stage.isRunning_eq_false_of_done_or_stopped _ h5]

/-- C2 witness: a pipeline whose five stages are all Done and Stopped
does not report running. -/
theorem Wpd.isRunning_iff_any_stage_running_witness :
    finishedWpd.isRunning = false :=
  (Wpd.isRunning_iff_any_stage_running finishedWpd).2
    (Or.inl rfl) (Or.inl rfl) (Or.inl rfl) (Or.inl rfl) (Or.inl rfl)

/-- C7: on every `Wpd` instance as built by `__init__`, `getPeakyData`
raises `AttributeError` on the never-assigned attribute `peakyData`
instead of returning a value; in particular it never returns the
`peakScoreData` sequence. -/
theorem Wpd.getPeakyData_raises_attributeError (w : Wpd) :
    w.getPeakyData = Except.error (PyError.attributeError ("peakyData")) ∧
    (∀ a : Attr, w.getPeakyData ≠ Except.ok a) ∧
    w.getPeakyData ≠ Except.ok (Attr.plotRef w.peakScoreData) := by
  refine ⟨rfl, ?_, ?_⟩ <;> intros <;> simp [Wpd.getPeakyData, Wpd.getAttr]

/-- C8: `Wpd.start` calls `start()` exactly once on each of the five
stages, in source-to-sink order (PreProcessor, Window, PeakScorer,
PeakDetector, PostProcessor), with no guard: the same five calls are
made whatever state the pipeline is in. -/
theorem Wpd.start_calls_each_stage_once_in_order (w : Wpd) :
    (Wpd.start w).2 =
      [Event.startStage .preProcessing, Event.startStage .window,
       Event.startStage .peakScorer, Event.startStage .peakDetection,
       Event.startStage .postProcessing] ∧
    (∀ n : StageName, ((Wpd.start w).2).count (Event.startStage n) = 1) ∧
    (∀ w' : Wpd, (Wpd.start w').2 = (Wpd.start w).2) := by
  refine ⟨rfl, ?_, fun w' => rfl⟩
  intro n
  cases n <;> rfl

/-- C9: `Wpd.stop` calls `stop()` exactly once on each of the five
stages and nothing else: every event of its trace is a stage `stop()`
call (no `isDone`/`isRunning` polling, no waiting), and the object's
queue and sequence attributes are untouched. -/
theorem Wpd.stop_calls_each_stage_once_and_returns (w : Wpd) :
    (Wpd.stop w).2 =
      [Event.stopStage .preProcessing, Event.stopStage .window,
       Event.stopStage .peakScorer, Event.stopStage .peakDetection,
       Event.stopStage .postProcessing] ∧
    (∀ n : StageName, ((Wpd.stop w).2).count (Event.stopStage n) = 1) ∧
    (∀ ev ∈ (Wpd.stop w).2, ∃ n : StageName, ev = Event.stopStage n) ∧
    (Wpd.stop w).1.inputQueue = w.inputQueue ∧
    (Wpd.stop w).1.dataQueue = w.dataQueue ∧
    (Wpd.stop w).1.smoothedDataQueue = w.smoothedDataQueue ∧
    (Wpd.stop w).1.peakScores = w.peakScores ∧
    (Wpd.stop w).1.peaks = w.peaks ∧
    (Wpd.stop w).1.data = w.data ∧
    (Wpd.stop w).1.smoothedData = w.smoothedData ∧
    (Wpd.stop w).1.peakScoreData = w.peakScoreData ∧
    (Wpd.stop w).1.peakData = w.peakData ∧
    (Wpd.stop w).1.confirmedPeaks = w.confirmedPeaks := by
  refine ⟨rfl, ?_, ?_, rfl, rfl, rfl, rfl, rfl, rfl, rfl, rfl, rfl, rfl⟩
  · intro n; cases n <;> rfl
  · intro ev hev
    simp only [Wpd.stop, List.mem_cons, List.not_mem_nil, or_false] at hev
    rcases hev with h | h | h | h | h <;> exact ⟨_, h⟩

/-- One lifecycle call leaves every queue and plottable-list attribute
of the `Wpd` object unchanged. -/
theorem Wpd.applyOp_preserves_refs (w : Wpd) (op : LifecycleOp) :
    (w.applyOp op).inputQueue = w.inputQueue ∧
    (w.applyOp op).dataQueue = w.dataQueue ∧
    (w.applyOp op).smoothedDataQueue = w.smoothedDataQueue ∧
    (w.applyOp op).peakScores = w.peakScores ∧
    (w.applyOp op).peaks = w.peaks ∧
    (w.applyOp op).data = w.data ∧
    (w.applyOp op).smoothedData = w.smoothedData ∧
    (w.applyOp op).peakScoreData = w.peakScoreData ∧
    (w.applyOp op).peakData = w.peakData ∧
    (w.applyOp op).confirmedPeaks = w.confirmedPeaks := by
  cases op <;> exact ⟨rfl, rfl, rfl, rfl, rfl, rfl, rfl, rfl, rfl, rfl⟩

/-- C10: the lifecycle methods `start`, `stop`, `isDone`, `isRunning`
only delegate to the stages: after any sequence of such calls,
`getRawData`, `getSmoothedData` and `getPeaks` return the identical
objects they returned at construction time, and `getProcessedDataSize`
measures the identical queue, so it returns the same value in every
queue store. -/
theorem Wpd.lifecycle_frame (w : Wpd) (ops : List LifecycleOp) :
    (w.applyOps ops).getRawData = w.getRawData ∧
    (w.applyOps ops).getSmoothedData = w.getSmoothedData ∧
    (w.applyOps ops).getPeaks = w.getPeaks ∧
    (w.applyOps ops).dataQueue = w.dataQueue ∧
    (∀ qs : Nat → QueueContents,
      (w.applyOps ops).getProcessedDataSize qs = w.getProcessedDataSize qs) := by
  induction ops generalizing w with
  | nil => exact ⟨rfl, rfl, rfl, rfl, fun qs => rfl⟩
  | cons op ops ih =>
    have hop := Wpd.applyOp_preserves_refs w op
    have hrec := ih (w.applyOp op)
    refine ⟨?_, ?_, ?_, ?_, ?_⟩
    · rw [Wpd.applyOps, List.foldl_cons, ← Wpd.applyOps, hrec.1]
      simp [Wpd.getRawData, hop.2.2.2.2.2.1]
    · rw [Wpd.applyOps, List.foldl_cons, ← Wpd.applyOps, hrec.2.1]
      simp [Wpd.getSmoothedData, hop.2.2.2.2.2.2.1]
    · rw [Wpd.applyOps, List.foldl_cons, ← Wpd.applyOps, hrec.2.2.1]
      simp [Wpd.getPeaks, hop.2.2.2.2.2.2.2.2.2]
    · rw [Wpd.applyOps, List.foldl_cons, ← Wpd.applyOps, hrec.2.2.2.1]
      exact hop.2.1
    · intro qs
      rw [Wpd.applyOps, List.foldl_cons, ← Wpd.applyOps, hrec.2.2.2.2 qs]
      simp [Wpd.getProcessedDataSize, hop.2.1]

/-- Any of the four queues allocated by `__init__` is empty in the
resulting world. -/
theorem Wpd.init_queue_empty (e : Env) (q ui i : Nat)
    (hi : i = e.nextId ∨ i = e.nextId + 1 ∨ i = e.nextId + 2 ∨ i = e.nextId + 3) :
    ((Wpd.init e q ui).2).queueContents i = [] := by
  rw [Wpd.init_queueContents, if_pos hi]

/-- The `data` list right after `__init__`. -/
theorem Wpd.init_plotState_data (e : Env) (q ui : Nat) :
    ((Wpd.init e q ui).2).plotStates (e.nextId + 4) =
      PlottableState.empty.subscribe ui ("raw_data") := by
  rw [Wpd.init_plotStates, if_pos rfl]

/-- The `smoothedData` list right after `__init__`. -/
theorem Wpd.init_plotState_smoothedData (e : Env) (q ui : Nat) :
    ((Wpd.init e q ui).2).plotStates (e.nextId + 5) =
      PlottableState.empty.subscribe ui ("smooth_data") := by
  rw [Wpd.init_plotStates, if_neg (by omega), if_pos rfl]

/-- The `peakScoreData` list right after `__init__`. -/
theorem Wpd.init_plotState_peakScoreData (e : Env) (q ui : Nat) :
    ((Wpd.init e q ui).2).plotStates (e.nextId + 6) =
      PlottableState.empty.subscribe ui ("peak_score_data") := by
  rw [Wpd.init_plotStates, if_neg (by omega), if_neg (by omega), if_pos rfl]

/-- The `peakData` list right after `__init__`. -/
theorem Wpd.init_plotState_peakData (e : Env) (q ui : Nat) :
    ((Wpd.init e q ui).2).plotStates (e.nextId + 7) =
      PlottableState.empty.subscribe ui ("peak_data") := by
  rw [Wpd.init_plotStates, if_neg (by omega), if_neg (by omega), if_neg (by omega), if_pos rfl]

/-- The `confirmedPeaks` list right after `__init__`. -/
theorem Wpd.init_plotState_confirmedPeaks (e : Env) (q ui : Nat) :
    ((Wpd.init e q ui).2).plotStates (e.nextId + 8) =
      PlottableState.empty.subscribe ui ("confirmed_peak_data") := by
  rw [Wpd.init_plotStates, if_neg (by omega), if_neg (by omega), if_neg (by omega),
    if_neg (by omega), if_pos rfl]

/-- Plottable lists other than the five allocated by `__init__` are
untouched by it. -/
theorem Wpd.init_plotState_frame (e : Env) (q ui i : Nat)
    (hi : i ≠ e.nextId + 4 ∧ i ≠ e.nextId + 5 ∧ i ≠ e.nextId + 6 ∧ i ≠ e.nextId + 7 ∧
      i ≠ e.nextId + 8) :
    ((Wpd.init e q ui).2).plotStates i = e.plotStates i := by
  rw [Wpd.init_plotStates, if_neg hi.1, if_neg hi.2.1, if_neg hi.2.2.1, if_neg hi.2.2.2.1,
    if_neg hi.2.2.2.2]

/-- C3: `__init__` wires the left-to-right chain — the supplied input
queue feeds the PreProcessor, whose output queue `dataQueue` feeds the
Window, whose output `smoothedDataQueue` feeds the PeakScorer, whose
output `peakScores` feeds the PeakDetector, whose output `peaks` feeds
the PostProcessor, which writes to the `confirmedPeaks` observable
sequence (each stage's input queue is identically the previous stage's
output queue) — and creates exactly four fresh inter-stage queues
(pairwise distinct, distinct from the input queue, empty) and five
fresh observable sequences (pairwise distinct, empty). -/
theorem Wpd.init_wires_pipeline_chain (e : Env) (q ui : Nat) (w : Wpd) (e' : Env)
    (hq : q < e.nextId) (h : Wpd.init e q ui = (w, e')) :
    (w.inputQueue = q ∧
     w.preProcessing.inQueue = some w.inputQueue ∧
     w.preProcessing.outQueue = some w.dataQueue ∧
     w.window.inQueue = some w.dataQueue ∧
     w.window.outQueue = some w.smoothedDataQueue ∧
     w.peakScorer.inQueue = some w.smoothedDataQueue ∧
     w.peakScorer.outQueue = some w.peakScores ∧
     w.peakDetection.inQueue = some w.peakScores ∧
     w.peakDetection.outQueue = some w.peaks ∧
     w.postProcessing.inQueue = some w.peaks ∧
     w.postProcessing.outQueue = none ∧
     w.postProcessing.plotRefs = [w.peakData, w.confirmedPeaks]) ∧
    (List.Nodup [w.dataQueue, w.smoothedDataQueue, w.peakScores, w.peaks] ∧
     w.inputQueue ∉ [w.dataQueue, w.smoothedDataQueue, w.peakScores, w.peaks] ∧
     e'.queueContents w.dataQueue = [] ∧
     e'.queueContents w.smoothedDataQueue = [] ∧
     e'.queueContents w.peakScores = [] ∧
     e'.queueContents w.peaks = []) ∧
    (List.Nodup [w.data, w.smoothedData, w.peakScoreData, w.peakData, w.confirmedPeaks] ∧
     (e'.plotStates w.data).entries = [] ∧
     (e'.plotStates w.smoothedData).entries = [] ∧
     (e'.plotStates w.peakScoreData).entries = [] ∧
     (e'.plotStates w.peakData).entries = [] ∧
     (e'.plotStates w.confirmedPeaks).entries = []) := by
  have hw : w = (Wpd.init e q ui).1 := by rw [h]
  have he : e' = (Wpd.init e q ui).2 := by rw [h]
  subst hw he
  refine ⟨⟨rfl, rfl, rfl, rfl, rfl, rfl, rfl, rfl, rfl, rfl, rfl, rfl⟩,
    ⟨?_, ?_, ?_, ?_, ?_, ?_⟩, ⟨?_, ?_, ?_, ?_, ?_, ?_⟩⟩
  · rw [Wpd.init_fst]
    simp
  · rw [Wpd.init_fst]
    simp only [List.mem_cons, List.mem_singleton, List.not_mem_nil, not_or, or_false]
    omega
  · exact Wpd.init_queue_empty e q ui _ (Or.inl rfl)
  · exact Wpd.init_queue_empty e q ui _ (Or.inr (Or.inl rfl))
  · exact Wpd.init_queue_empty e q ui _ (Or.inr (Or.inr (Or.inl rfl)))
  · exact Wpd.init_queue_empty e q ui _ (Or.inr (Or.inr (Or.inr rfl)))
  · rw [Wpd.init_fst]
    simp
  · rw [show ((Wpd.init e q ui).1).data = e.nextId + 4 from rfl, Wpd.init_plotState_data]
    rfl
  · rw [show ((Wpd.init e q ui).1).smoothedData = e.nextId + 5 from rfl,
      Wpd.init_plotState_smoothedData]
    rfl
  · rw [show ((Wpd.init e q ui).1).peakScoreData = e.nextId + 6 from rfl,
      Wpd.init_plotState_peakScoreData]
    rfl
  · rw [show ((Wpd.init e q ui).1).peakData = e.nextId + 7 from rfl,
      Wpd.init_plotState_peakData]
    rfl
  · rw [show ((Wpd.init e q ui).1).confirmedPeaks = e.nextId + 8 from rfl,
      Wpd.init_plotState_confirmedPeaks]
    rfl

/-- C4: `__init__` subscribes the single UI callback handler to the
five distinct observable sequences under exactly the topic names
`raw_data`, `smooth_data`, `peak_score_data`, `peak_data`,
`confirmed_peak_data` — one topic per sequence, each sequence ending up
with that sole subscription — and touches no other plottable list. -/
theorem Wpd.init_subscribes_ui_to_five_topics (e : Env) (q ui : Nat) (w : Wpd) (e' : Env)
    (h : Wpd.init e q ui = (w, e')) :
    (e'.plotStates w.data).subs = [⟨ui, "raw_data"⟩] ∧
    (e'.plotStates w.smoothedData).subs = [⟨ui, "smooth_data"⟩] ∧
    (e'.plotStates w.peakScoreData).subs = [⟨ui, "peak_score_data"⟩] ∧
    (e'.plotStates w.peakData).subs = [⟨ui, "peak_data"⟩] ∧
    (e'.plotStates w.confirmedPeaks).subs = [⟨ui, "confirmed_peak_data"⟩] ∧
    List.Nodup [w.data, w.smoothedData, w.peakScoreData, w.peakData, w.confirmedPeaks] ∧
    (∀ i, i ∉ [w.data, w.smoothedData, w.peakScoreData, w.peakData, w.confirmedPeaks] →
      e'.plotStates i = e.plotStates i) := by
  have hw : w = (Wpd.init e q ui).1 := by rw [h]
  have he : e' = (Wpd.init e q ui).2 := by rw [h]
  subst hw he
  refine ⟨?_, ?_, ?_, ?_, ?_, ?_, ?_⟩
  · rw [show ((Wpd.init e q ui).1).data = e.nextId + 4 from rfl, Wpd.init_plotState_data]
    rfl
  · rw [show ((Wpd.init e q ui).1).smoothedData = e.nextId + 5 from rfl,
      Wpd.init_plotState_smoothedData]
    rfl
  · rw [show ((Wpd.init e q ui).1).peakScoreData = e.nextId + 6 from rfl,
      Wpd.init_plotState_peakScoreData]
    rfl
  · rw [show ((Wpd.init e q ui).1).peakData = e.nextId + 7 from rfl,
      Wpd.init_plotState_peakData]
    rfl
  · rw [show ((Wpd.init e q ui).1).confirmedPeaks = e.nextId + 8 from rfl,
      Wpd.init_plotState_confirmedPeaks]
    rfl
  · rw [Wpd.init_fst]
    simp
  · rw [Wpd.init_fst]
    intro i hi
    simp only [List.mem_cons, List.not_mem_nil, not_or, or_false] at hi
    refine Wpd.init_plotState_frame e q ui i ?_
    omega

/-- C5: `getProcessedDataSize` returns the size — the number of queued
items — of the queue between the PreProcessor and the Window stage:
`dataQueue` is the PreProcessor's output queue and the Window's input
queue, and the method returns its size in any queue store. -/
theorem Wpd.getProcessedDataSize_measures_boundary_queue (e : Env) (q ui : Nat) (w : Wpd)
    (e' : Env) (h : Wpd.init e q ui = (w, e')) :
    w.preProcessing.outQueue = some w.dataQueue ∧
    w.window.inQueue = some w.dataQueue ∧
    (∀ qs : Nat → QueueContents, w.getProcessedDataSize qs = Queue.size (qs w.dataQueue)) ∧
    (∀ qs : Nat → QueueContents, w.getProcessedDataSize qs = (qs w.dataQueue).length) := by
  have hw : w = (Wpd.init e q ui).1 := by rw [h]
  subst hw
  exact ⟨rfl, rfl, fun qs => rfl, fun qs => rfl⟩

/-- C6: `getSteps` returns the length of the confirmed-peaks
observable sequence, which is the length of the sequence returned by
`getPeaks`: `getPeaks` returns the very `confirmedPeaks` object — the
sequence subscribed under topic `confirmed_peak_data` — and not the
candidate-peak sequence `peakData`. -/
theorem Wpd.getSteps_eq_length_getPeaks (e : Env) (q ui : Nat) (w : Wpd) (e' : Env)
    (h : Wpd.init e q ui = (w, e')) :
    (∀ ps : Nat → PlottableState, w.getSteps ps = (ps w.getPeaks).length) ∧
    w.getPeaks = w.confirmedPeaks ∧
    (e'.plotStates w.getPeaks).subs = [⟨ui, "confirmed_peak_data"⟩] ∧
    w.getPeaks ≠ w.peakData := by
  have hw : w = (Wpd.init e q ui).1 := by rw [h]
  have he : e' = (Wpd.init e q ui).2 := by rw [h]
  subst hw he
  refine ⟨fun ps => rfl, rfl, ?_, ?_⟩
  · rw [show ((Wpd.init e q ui).1).getPeaks = e.nextId + 8 from rfl,
      Wpd.init_plotState_confirmedPeaks]
    rfl
  · rw [Wpd.init_fst]
    simp [Wpd.getPeaks]

/-- C1 witness: a pipeline whose five stages are all done reports
done. -/
theorem Wpd.isDone_iff_all_stages_done_witness : finishedWpd.isDone = true :=
  (Wpd.isDone_iff_all_stages_done finishedWpd).2 ⟨rfl, rfl, rfl, rfl, rfl⟩

/-- C3 witness: the constructor theorem instantiated at the concrete
pipeline `wpd0` built over `env0` from input queue `3` (fresh, since
`3 < env0.nextId`) and handler `7`. -/
theorem Wpd.init_wires_pipeline_chain_witness :
    wpd0.inputQueue = 3 ∧
    wpd0.preProcessing.inQueue = some wpd0.inputQueue ∧
    wpd0.preProcessing.outQueue = some wpd0.dataQueue ∧
    wpd0.window.inQueue = some wpd0.dataQueue ∧
    wpd0.window.outQueue = some wpd0.smoothedDataQueue ∧
    wpd0.peakScorer.inQueue = some wpd0.smoothedDataQueue ∧
    wpd0.peakScorer.outQueue = some wpd0.peakScores ∧
    wpd0.peakDetection.inQueue = some wpd0.peakScores ∧
    wpd0.peakDetection.outQueue = some wpd0.peaks ∧
    wpd0.postProcessing.inQueue = some wpd0.peaks ∧
    wpd0.postProcessing.outQueue = none ∧
    wpd0.postProcessing.plotRefs = [wpd0.peakData, wpd0.confirmedPeaks] := by
  have h := Wpd.init_wires_pipeline_chain env0 3 7 wpd0 env0' (by decide) rfl
  exact ⟨h.1.1, h.1.2.1, h.1.2.2.1, h.1.2.2.2.1, h.1.2.2.2.2.1, h.1.2.2.2.2.2.1,
    h.1.2.2.2.2.2.2.1, h.1.2.2.2.2.2.2.2.1, h.1.2.2.2.2.2.2.2.2.1,
    h.1.2.2.2.2.2.2.2.2.2.1, h.1.2.2.2.2.2.2.2.2.2.2.1, h.1.2.2.2.2.2.2.2.2.2.2.2⟩

/-- C4 witness: the subscription theorem instantiated at the concrete
pipeline `wpd0` with handler `7`. -/
theorem Wpd.init_subscribes_ui_to_five_topics_witness :
    (env0'.plotStates wpd0.data).subs = [⟨7, "raw_data"⟩] ∧
    (env0'.plotStates wpd0.smoothedData).subs = [⟨7, "smooth_data"⟩] ∧
    (env0'.plotStates wpd0.peakScoreData).subs = [⟨7, "peak_score_data"⟩] ∧
    (env0'.plotStates wpd0.peakData).subs = [⟨7, "peak_data"⟩] ∧
    (env0'.plotStates wpd0.confirmedPeaks).subs = [⟨7, "confirmed_peak_data"⟩] ∧
    env0'.plotStates 0 = env0.plotStates 0 := by
  have h := Wpd.init_subscribes_ui_to_five_topics env0 3 7 wpd0 env0' rfl
  exact ⟨h.1, h.2.1, h.2.2.1, h.2.2.2.1, h.2.2.2.2.1, h.2.2.2.2.2.2 0 (by decide)⟩

/-- C5 witness: on the concrete pipeline `wpd0`, in a store where the
pre/window boundary queue holds two items, `getProcessedDataSize`
returns that queue's size. -/
theorem Wpd.getProcessedDataSize_measures_boundary_queue_witness :
    wpd0.preProcessing.outQueue = some wpd0.dataQueue ∧
    wpd0.window.inQueue = some wpd0.dataQueue ∧
    wpd0.getProcessedDataSize (fun _ => [1, 2]) =
      Queue.size ((fun _ => ([1, 2] : QueueContents)) wpd0.dataQueue) := by
  have h := Wpd.getProcessedDataSize_measures_boundary_queue env0 3 7 wpd0 env0' rfl
  exact ⟨h.1, h.2.1, h.2.2.1 (fun _ => [1, 2])⟩

/-- C6 witness: on the concrete pipeline `wpd0`, in a store where every
sequence holds three entries, `getSteps` equals the length of the
sequence returned by `getPeaks`, which is the `confirmed_peak_data`
sequence and not the candidate-peak sequence. -/
theorem Wpd.getSteps_eq_length_getPeaks_witness :
    wpd0.getSteps (fun _ => ⟨[1, 2, 3], []⟩) =
      ((fun _ => (⟨[1, 2, 3], []⟩ : PlottableState)) wpd0.getPeaks).length ∧
    wpd0.getPeaks = wpd0.confirmedPeaks ∧
    (env0'.plotStates wpd0.getPeaks).subs = [⟨7, "confirmed_peak_data"⟩] ∧
    wpd0.getPeaks ≠ wpd0.peakData := by
  have h := Wpd.getSteps_eq_length_getPeaks env0 3 7 wpd0 env0' rfl
  exact ⟨h.1 (fun _ => ⟨[1, 2, 3], []⟩), h.2.1, h.2.2.1, h.2.2.2⟩

/-- C7 witness: on the concrete pipeline `wpd0`, `getPeakyData` raises
`AttributeError` and in particular does not return the `peakScoreData`
sequence. -/
theorem Wpd.getPeakyData_raises_attributeError_witness :
    wpd0.getPeakyData = Except.error (PyError.attributeError ("peakyData")) ∧
    wpd0.getPeakyData ≠ Except.ok (Attr.plotRef wpd0.peakScoreData) := by
  have h := Wpd.getPeakyData_raises_attributeError wpd0
  exact ⟨h.1, h.2.2⟩

/-- C8 witness: starting the concrete pipeline `wpd0` calls `start()`
on the Window stage exactly once. -/
theorem Wpd.start_calls_each_stage_once_in_order_witness :
    ((Wpd.start wpd0).2).count (Event.startStage .window) = 1 :=
  (Wpd.start_calls_each_stage_once_in_order wpd0).2.1 .window

/-- C9 witness: stopping the concrete pipeline `wpd0` emits only stage
`stop()` calls — its first trace event is one — and leaves `dataQueue`
untouched. -/
theorem Wpd.stop_calls_each_stage_once_and_returns_witness :
    (∃ n : StageName, Event.stopStage StageName.preProcessing = Event.stopStage n) ∧
    (Wpd.stop wpd0).1.dataQueue = wpd0.dataQueue := by
  have h := Wpd.stop_calls_each_stage_once_and_returns wpd0
  exact ⟨h.2.2.1 (Event.stopStage StageName.preProcessing) (by simp [Wpd.stop]), h.2.2.2.2.1⟩

/-- C10 witness: after starting, stopping and querying the concrete
pipeline `wpd0`, `getRawData` still returns the object created at
construction time. -/
theorem Wpd.lifecycle_frame_witness :
    (wpd0.applyOps [.start, .queryRunning, .stop, .queryDone]).getRawData = wpd0.getRawData :=
  (Wpd.lifecycle_frame wpd0 [.start, .queryRunning, .stop, .queryDone]).1
